import Mathlib

/-!
# libuac PulseAudio backend (`gear-lib/libuac/pulseaudio.c`)

A shallow embedding of the capture backend: the format and channel mappers,
the info callbacks, the blocking waiters built on the threaded main loop, the
handshake of `uac_pa_open`, the negotiation of `uac_pa_start_stream` and the
frame computation of `read_cb`.

Conventions.
* C pointers that only serve as identities (connection, stream, main loop,
  buffers, the owning `uac_ctx`) are natural-number tokens, `0` being `NULL`.
* Unsigned machine integers are naturals; a reduction `% 2 ^ w` is written
  where the C arithmetic can wrap.
* `printf` output is diagnostic and is not modelled.
* A blocking loop is driven by the list of values the caller reads after each
  return of `pa_threaded_mainloop_wait`; when the list is used up the caller is
  still suspended and the function has no result (`none`).
-/

namespace PulseAudio

/-! ## Types of the PulseAudio client library -/

/-- The sample formats of `pulse/sample.h`, in declaration order. -/
inductive pa_sample_format_t
  | PA_SAMPLE_U8
  | PA_SAMPLE_ALAW
  | PA_SAMPLE_ULAW
  | PA_SAMPLE_S16LE
  | PA_SAMPLE_S16BE
  | PA_SAMPLE_FLOAT32LE
  | PA_SAMPLE_FLOAT32BE
  | PA_SAMPLE_S32LE
  | PA_SAMPLE_S32BE
  | PA_SAMPLE_S24LE
  | PA_SAMPLE_S24BE
  | PA_SAMPLE_S24_32LE
  | PA_SAMPLE_S24_32BE
  | PA_SAMPLE_MAX
  | PA_SAMPLE_INVALID
  deriving DecidableEq, Repr

/-- The connection states of `pulse/def.h`. -/
inductive pa_context_state_t
  | PA_CONTEXT_UNCONNECTED
  | PA_CONTEXT_CONNECTING
  | PA_CONTEXT_AUTHORIZING
  | PA_CONTEXT_SETTING_NAME
  | PA_CONTEXT_READY
  | PA_CONTEXT_FAILED
  | PA_CONTEXT_TERMINATED
  deriving DecidableEq, Repr

/-- The stream states of `pulse/def.h`. -/
inductive pa_stream_state_t
  | PA_STREAM_UNCONNECTED
  | PA_STREAM_CREATING
  | PA_STREAM_READY
  | PA_STREAM_FAILED
  | PA_STREAM_TERMINATED
  deriving DecidableEq, Repr

/-- The operation states of `pulse/def.h`. -/
inductive pa_operation_state_t
  | PA_OPERATION_RUNNING
  | PA_OPERATION_DONE
  | PA_OPERATION_CANCELLED
  deriving DecidableEq, Repr

/-- The channel positions of `pulse/channelmap.h` that the backend names, the
remaining positions of the header being gathered under `PA_CHANNEL_POSITION_OTHER`
with their numeric value. -/
inductive pa_channel_position_t
  | PA_CHANNEL_POSITION_INVALID
  | PA_CHANNEL_POSITION_MONO
  | PA_CHANNEL_POSITION_FRONT_LEFT
  | PA_CHANNEL_POSITION_FRONT_RIGHT
  | PA_CHANNEL_POSITION_FRONT_CENTER
  | PA_CHANNEL_POSITION_REAR_CENTER
  | PA_CHANNEL_POSITION_REAR_LEFT
  | PA_CHANNEL_POSITION_REAR_RIGHT
  | PA_CHANNEL_POSITION_LFE
  | PA_CHANNEL_POSITION_FRONT_LEFT_OF_CENTER
  | PA_CHANNEL_POSITION_FRONT_RIGHT_OF_CENTER
  | PA_CHANNEL_POSITION_SIDE_LEFT
  | PA_CHANNEL_POSITION_SIDE_RIGHT
  | PA_CHANNEL_POSITION_OTHER (value : Nat)
  deriving DecidableEq, Repr

/-- The `pa_sample_spec` record: format, rate (uint32) and channels (uint8). -/
structure pa_sample_spec where
  format : pa_sample_format_t
  rate : Nat
  channels : Nat
  deriving DecidableEq, Repr

/-- The `pa_channel_map` record: a channel count (uint8) and the array
`map[PA_CHANNELS_MAX]`, read through its index. -/
structure pa_channel_map where
  channels : Nat
  map : Nat → pa_channel_position_t

/-- The `pa_server_info` record handed to the server-info callback. -/
structure pa_server_info where
  user_name : String
  host_name : String
  server_version : String
  server_name : String
  sample_spec : pa_sample_spec
  default_sink_name : String
  default_source_name : String
  cookie : Nat
  channel_map : pa_channel_map

/-- The part of `pa_source_info` that the source-info callback reads: the
sample spec the device reports. -/
structure pa_source_info where
  sample_spec : pa_sample_spec
  deriving DecidableEq, Repr

/-! ## Types of the backend -/

/-- The `enum speaker_layout` of lines 37-46. -/
inductive speaker_layout
  | SPEAKERS_UNKNOWN
  | SPEAKERS_MONO
  | SPEAKERS_STEREO
  | SPEAKERS_2POINT1
  | SPEAKERS_4POINT0
  | SPEAKERS_4POINT1
  | SPEAKERS_5POINT1
  | SPEAKERS_7POINT1
  deriving DecidableEq, Repr

/-- Modelled from the spec: `enum sample_format` is declared in `libuac.h`,
which is not among the sources. Its members are the five tags that
`pulse_to_sample_format` returns, the ones section 6 of the spec lists for
the frame record (u8, s16, s32, float32, unknown). -/
inductive sample_format
  | SAMPLE_FORMAT_UNKNOWN
  | SAMPLE_FORMAT_U8BIT
  | SAMPLE_FORMAT_16BIT
  | SAMPLE_FORMAT_32BIT
  | SAMPLE_FORMAT_FLOAT
  deriving DecidableEq, Repr

/-- Modelled from the spec: `struct audio_frame` is declared in `libuac.h`,
which is not among the sources. The fields are those `read_cb` assigns, typed
as section 6 of the spec gives them: the rate (uint32), the format tag, the
borrowed buffer (a token), the frame count (unsigned, holding the quotient
as computed) and the timestamp in nanoseconds (uint64). -/
structure audio_frame where
  samples_per_sec : Nat
  format : sample_format
  data0 : Nat
  frames : Nat
  timestamp : Nat
  deriving DecidableEq, Repr

/-- The `struct pulse_ctx` of lines 48-71. -/
structure pulse_ctx where
  fd : Int
  parent : Nat
  is_streaming : Bool
  device : Option String
  pa_mainloop : Nat
  pa_ctx : Nat
  pa_stream : Nat
  pa_state : pa_context_state_t
  pa_stream_state : pa_stream_state_t
  pa_sample_spec : pa_sample_spec
  pa_channel_map : pa_channel_map
  pa_server_info : Option pa_server_info
  format : pa_sample_format_t
  samples_per_sec : Nat
  bytes_per_frame : Nat
  channels : Nat
  first_ts : Nat
  speakers : speaker_layout

/-- The calls into the client library (and `free`) that a function performs,
in program order. -/
inductive Event
  | mainloop_new
  | context_new
  | context_set_state_callback
  | context_connect
  | mainloop_start
  | mainloop_lock
  | mainloop_unlock
  | mainloop_wait
  | mainloop_signal
  | mainloop_stop
  | free_ctx
  | context_get_server_info
  | context_get_sink_info_list
  | context_get_source_info_list
  | context_get_source_info_by_name
  | operation_unref
  | stream_new
  | stream_set_read_callback
  | stream_set_write_callback
  | stream_set_state_callback
  | stream_set_overflow_callback
  | stream_set_underflow_callback
  | stream_set_latency_update_callback
  | stream_connect_record
  | stream_peek
  | stream_drop
  deriving DecidableEq, Repr

open pa_sample_format_t pa_context_state_t pa_stream_state_t pa_operation_state_t
open pa_channel_position_t speaker_layout sample_format

/-! ## Format and channel mappers (lines 199-235) -/

/-- The function `pulse_to_sample_format` of lines 199-214. -/
def pulse_to_sample_format (format : pa_sample_format_t) : sample_format :=
  match format with
  | PA_SAMPLE_U8 => SAMPLE_FORMAT_U8BIT
  | PA_SAMPLE_S16LE => SAMPLE_FORMAT_16BIT
  | PA_SAMPLE_S32LE => SAMPLE_FORMAT_32BIT
  | PA_SAMPLE_FLOAT32LE => SAMPLE_FORMAT_FLOAT
  | _ => SAMPLE_FORMAT_UNKNOWN

/-- The function `pulse_channels_to_speakers` of lines 216-235. -/
def pulse_channels_to_speakers (channels : Nat) : speaker_layout :=
  match channels with
  | 1 => SPEAKERS_MONO
  | 2 => SPEAKERS_STEREO
  | 3 => SPEAKERS_2POINT1
  | 4 => SPEAKERS_4POINT0
  | 5 => SPEAKERS_4POINT1
  | 6 => SPEAKERS_5POINT1
  | 8 => SPEAKERS_7POINT1
  | _ => SPEAKERS_UNKNOWN

/-! ## Info callbacks (lines 117-292) -/

/-- The callback `source_info_cb` of lines 237-271: the context afterwards and
the library calls made. -/
def source_info_cb (pc : Nat) (info : pa_source_info) (eol : Int) (c : pulse_ctx) :
    pulse_ctx × List Event :=
  if c.pa_ctx ≠ pc then (c, [])
  else if eol ≠ 0 then (c, [Event.mainloop_signal])
  else
    let format := info.sample_spec.format
    let format :=
      if pulse_to_sample_format format = SAMPLE_FORMAT_UNKNOWN then PA_SAMPLE_FLOAT32LE
      else format
    let channels := info.sample_spec.channels
    let speakers := pulse_channels_to_speakers channels
    let channels := if speakers = SPEAKERS_UNKNOWN then 2 else channels
    ({ c with
        format := format
        samples_per_sec := info.sample_spec.rate
        channels := channels
        speakers := speakers },
     [Event.mainloop_signal])

/-- The callback `pulse_state_cb` of lines 117-146. -/
def pulse_state_cb (pc : Nat) (c : pulse_ctx) : pulse_ctx × List Event :=
  if c.pa_ctx ≠ pc then (c, [])
  else (c, [Event.mainloop_signal])

/-- The callback `server_info_cb` of lines 148-176. -/
def server_info_cb (pc : Nat) (info : pa_server_info) (c : pulse_ctx) :
    pulse_ctx × List Event :=
  if c.pa_ctx ≠ pc then (c, [])
  else
    ({ c with
        pa_server_info := some info
        device := some info.default_source_name
        pa_channel_map := info.channel_map },
     [Event.mainloop_signal])

/-- The callback `source_info_list_cb` of lines 178-197. -/
def source_info_list_cb (pc : Nat) (_eol : Int) (c : pulse_ctx) : pulse_ctx × List Event :=
  if c.pa_ctx ≠ pc then (c, [])
  else (c, [Event.mainloop_signal])

/-- The callback `sink_info_list_cb` of lines 273-292. -/
def sink_info_list_cb (pc : Nat) (_eol : Int) (c : pulse_ctx) : pulse_ctx × List Event :=
  if c.pa_ctx ≠ pc then (c, [])
  else (c, [Event.mainloop_signal])

/-! ## Channel map (lines 513-556) -/

/-- The assignment `map[i] = v` on the position array. -/
def set_pos (m : Nat → pa_channel_position_t) (i : Nat) (v : pa_channel_position_t) :
    Nat → pa_channel_position_t :=
  fun j => if j = i then v else m j

/-- The function `pulse_channel_map` of lines 513-556: the return value and the
map written through `pm`. -/
def pulse_channel_map (pm : pa_channel_map) (speakers : speaker_layout) :
    Int × pa_channel_map :=
  let m := set_pos pm.map 0 PA_CHANNEL_POSITION_FRONT_LEFT
  let m := set_pos m 1 PA_CHANNEL_POSITION_FRONT_RIGHT
  let m := set_pos m 2 PA_CHANNEL_POSITION_FRONT_CENTER
  let m := set_pos m 3 PA_CHANNEL_POSITION_LFE
  let m := set_pos m 4 PA_CHANNEL_POSITION_REAR_LEFT
  let m := set_pos m 5 PA_CHANNEL_POSITION_REAR_RIGHT
  let m := set_pos m 6 PA_CHANNEL_POSITION_SIDE_LEFT
  let m := set_pos m 7 PA_CHANNEL_POSITION_SIDE_RIGHT
  match speakers with
  | SPEAKERS_MONO =>
      (0, { channels := 1, map := set_pos m 0 PA_CHANNEL_POSITION_MONO })
  | SPEAKERS_STEREO =>
      (0, { channels := 2, map := m })
  | SPEAKERS_2POINT1 =>
      (0, { channels := 3, map := set_pos m 2 PA_CHANNEL_POSITION_LFE })
  | SPEAKERS_4POINT0 =>
      (0, { channels := 4, map := set_pos m 3 PA_CHANNEL_POSITION_REAR_CENTER })
  | SPEAKERS_4POINT1 =>
      (0, { channels := 5, map := set_pos m 4 PA_CHANNEL_POSITION_REAR_CENTER })
  | SPEAKERS_5POINT1 =>
      (0, { channels := 6, map := m })
  | SPEAKERS_7POINT1 =>
      (0, { channels := 8, map := m })
  | SPEAKERS_UNKNOWN =>
      (0, { channels := 0, map := m })

/-- The first `pm.channels` entries of the position array: the positions the
library treats as populated. -/
def active_positions (pm : pa_channel_map) : List pa_channel_position_t :=
  (List.range pm.channels).map pm.map

/-! ## Sample-spec helpers of the client library (`pulse/sample.c`) -/

/-- The constant `PA_CHANNELS_MAX` of `pulse/sample.h`. -/
def PA_CHANNELS_MAX : Nat := 32

/-- The constant `PA_RATE_MAX` of `pulse/sample.h`. -/
def PA_RATE_MAX : Nat := 48000 * 8

/-- The library function `pa_sample_format_valid`: the format is one of the
thirteen real formats. -/
def pa_sample_format_valid (f : pa_sample_format_t) : Bool :=
  match f with
  | PA_SAMPLE_MAX => false
  | PA_SAMPLE_INVALID => false
  | _ => true

/-- The library function `pa_sample_size_of_format`: the byte width of one
sample. The two tags that are not formats have no entry in the table of the
library; they get 0 here and are never looked up after validation. -/
def pa_sample_size_of_format (f : pa_sample_format_t) : Nat :=
  match f with
  | PA_SAMPLE_U8 => 1
  | PA_SAMPLE_ALAW => 1
  | PA_SAMPLE_ULAW => 1
  | PA_SAMPLE_S16LE => 2
  | PA_SAMPLE_S16BE => 2
  | PA_SAMPLE_FLOAT32LE => 4
  | PA_SAMPLE_FLOAT32BE => 4
  | PA_SAMPLE_S32LE => 4
  | PA_SAMPLE_S32BE => 4
  | PA_SAMPLE_S24LE => 3
  | PA_SAMPLE_S24BE => 3
  | PA_SAMPLE_S24_32LE => 4
  | PA_SAMPLE_S24_32BE => 4
  | PA_SAMPLE_MAX => 0
  | PA_SAMPLE_INVALID => 0

/-- The library function `pa_sample_spec_valid`: a positive rate within the
limit of the library (one percent above `PA_RATE_MAX`), a channel count in
`1 .. PA_CHANNELS_MAX` and a real format. -/
def pa_sample_spec_valid (spec : pa_sample_spec) : Bool :=
  decide (0 < spec.rate) && decide (spec.rate ≤ PA_RATE_MAX * 101 / 100) &&
  decide (0 < spec.channels) && decide (spec.channels ≤ PA_CHANNELS_MAX) &&
  pa_sample_format_valid spec.format

/-- The library function `pa_frame_size`: the bytes of one frame. -/
def pa_frame_size (spec : pa_sample_spec) : Nat :=
  pa_sample_size_of_format spec.format * spec.channels

/-- The macro `PA_CONTEXT_IS_GOOD` of `pulse/def.h`. -/
def PA_CONTEXT_IS_GOOD (x : pa_context_state_t) : Bool :=
  x = PA_CONTEXT_CONNECTING || x = PA_CONTEXT_AUTHORIZING ||
  x = PA_CONTEXT_SETTING_NAME || x = PA_CONTEXT_READY

/-! ## Blocking waiters (lines 103-115 and 294-420) -/

/-- The loop of `pulse_context_ready` (lines 110-112): `s` is the state just
read, `wakes` the states read after each later wake-up. The result lists the
calls made; there is none while the caller is still suspended. -/
def context_ready_loop : pa_context_state_t → List pa_context_state_t → Option (List Event)
  | s, wakes =>
    if s ≠ PA_CONTEXT_READY then
      match wakes with
      | [] => none
      | s1 :: ws => (context_ready_loop s1 ws).map (fun e => Event.mainloop_wait :: e)
    else some []

/-- The function `pulse_context_ready` of lines 103-115, on the connection
state `s` found at entry and the states found after each wake-up. -/
def pulse_context_ready (s : pa_context_state_t) (wakes : List pa_context_state_t) :
    Option (Int × List Event) :=
  if !PA_CONTEXT_IS_GOOD s then
    some (-1, [Event.mainloop_lock, Event.mainloop_unlock])
  else
    (context_ready_loop s wakes).map
      (fun e => (0, [Event.mainloop_lock] ++ e ++ [Event.mainloop_unlock]))

/-- What the caller finds when a wait on a pending operation returns: the
callback invocations the worker thread made meanwhile, and the state the
operation is in. -/
structure op_wake (κ : Type) where
  calls : List κ
  state : pa_operation_state_t

/-- The callbacks of one wake-up, applied to the context in order. -/
def run_calls {κ : Type} (cb : κ → pulse_ctx → pulse_ctx × List Event) :
    List κ → pulse_ctx → pulse_ctx
  | [], c => c
  | k :: ks, c => run_calls cb ks (cb k c).1

/-- The wait loop that the four query functions share word for word (lines
311-318, 343-350, 375-382, 407-414): `state` is the operation state just read,
`ret` the value of the local `ret` on entry. The result is the final `ret`,
the context as the callbacks left it and the calls made. -/
def operation_wait_loop {κ : Type} (cb : κ → pulse_ctx → pulse_ctx × List Event) (ret : Int) :
    pa_operation_state_t → List (op_wake κ) → pulse_ctx → Option (Int × pulse_ctx × List Event)
  | state, wakes, c =>
    if state = PA_OPERATION_RUNNING then
      if state = PA_OPERATION_CANCELLED then some (-1, c, [])
      else
        match wakes with
        | [] => none
        | w :: ws =>
            (operation_wait_loop cb ret w.state ws (run_calls cb w.calls c)).map
              (fun r => (r.1, r.2.1, Event.mainloop_wait :: r.2.2))
    else some (ret, c, [])

/-- The observations that drive one query function: the connection state at
entry and after each wake-up of `pulse_context_ready`, and the outcome of the
submission, `none` for a `NULL` operation handle, otherwise the operation
state read first and the wake-ups that follow. -/
structure waiter_script (κ : Type) where
  ctx_state : pa_context_state_t
  ctx_wakes : List pa_context_state_t
  op : Option (pa_operation_state_t × List (op_wake κ))

/-- The body the four query functions share: `submit` is the request sent and
`cb` the callback registered with it. -/
def pulse_query {κ : Type} (submit : Event) (cb : κ → pulse_ctx → pulse_ctx × List Event)
    (c : pulse_ctx) (sc : waiter_script κ) : Option (Int × pulse_ctx × List Event) :=
  match pulse_context_ready sc.ctx_state sc.ctx_wakes with
  | none => none
  | some (r, e0) =>
    if r = -1 then some (-1, c, e0)
    else
      match sc.op with
      | none => some (-1, c, e0 ++ [Event.mainloop_lock, submit, Event.mainloop_unlock])
      | some (state, wakes) =>
          (operation_wait_loop cb 0 state wakes c).map
            (fun r => (r.1, r.2.1,
              e0 ++ [Event.mainloop_lock, submit] ++ r.2.2 ++
                [Event.operation_unref, Event.mainloop_unlock]))

/-- One invocation of `server_info_cb` by the worker thread. -/
structure server_info_call where
  pc : Nat
  info : pa_server_info

/-- One invocation of a list callback by the worker thread. -/
structure info_list_call where
  pc : Nat
  eol : Int

/-- One invocation of `source_info_cb` by the worker thread. -/
structure source_info_call where
  pc : Nat
  info : pa_source_info
  eol : Int

/-- The function `pulse_get_server_info` of lines 294-324. -/
def pulse_get_server_info (c : pulse_ctx) (sc : waiter_script server_info_call) :
    Option (Int × pulse_ctx × List Event) :=
  pulse_query Event.context_get_server_info (fun k => server_info_cb k.pc k.info) c sc

/-- The function `pulse_get_sink_list` of lines 326-356. -/
def pulse_get_sink_list (c : pulse_ctx) (sc : waiter_script info_list_call) :
    Option (Int × pulse_ctx × List Event) :=
  pulse_query Event.context_get_sink_info_list (fun k => sink_info_list_cb k.pc k.eol) c sc

/-- The function `pulse_get_source_list` of lines 358-388. -/
def pulse_get_source_list (c : pulse_ctx) (sc : waiter_script info_list_call) :
    Option (Int × pulse_ctx × List Event) :=
  pulse_query Event.context_get_source_info_list
    (fun k => source_info_list_cb k.pc k.eol) c sc

/-- The function `pulse_get_source_info` of lines 390-420. -/
def pulse_get_source_info (c : pulse_ctx) (sc : waiter_script source_info_call) :
    Option (Int × pulse_ctx × List Event) :=
  pulse_query Event.context_get_source_info_by_name
    (fun k => source_info_cb k.pc k.info k.eol) c sc

/-! ## Handshake (lines 559-606) -/

/-- The context that `calloc` returns: every field zero. -/
def pulse_ctx_zero : pulse_ctx :=
  { fd := 0
    parent := 0
    is_streaming := false
    device := none
    pa_mainloop := 0
    pa_ctx := 0
    pa_stream := 0
    pa_state := PA_CONTEXT_UNCONNECTED
    pa_stream_state := PA_STREAM_UNCONNECTED
    pa_sample_spec := { format := PA_SAMPLE_U8, rate := 0, channels := 0 }
    pa_channel_map := { channels := 0, map := fun _ => PA_CHANNEL_POSITION_MONO }
    pa_server_info := none
    format := PA_SAMPLE_U8
    samples_per_sec := 0
    bytes_per_frame := 0
    channels := 0
    first_ts := 0
    speakers := SPEAKERS_UNKNOWN }

/-- The handshake loop of `uac_pa_open` (lines 578-584): `s` is the connection
state just read and stored in `pa_state`, `wakes` the states read after each
later wake-up. -/
def open_wait_loop :
    pa_context_state_t → List pa_context_state_t → pulse_ctx → Option (pulse_ctx × List Event)
  | s, wakes, c =>
    let c1 := { c with pa_state := s }
    if s ≠ PA_CONTEXT_READY then
      if s = PA_CONTEXT_FAILED ∨ s = PA_CONTEXT_TERMINATED then some (c1, [])
      else
        match wakes with
        | [] => none
        | s1 :: ws =>
            (open_wait_loop s1 ws c1).map (fun r => (r.1, Event.mainloop_wait :: r.2))
    else some (c1, [])

/-- The scripts of the three discovery queries that `uac_pa_open` runs. -/
structure discovery_script where
  server_info : waiter_script server_info_call
  sink_list : waiter_script info_list_call
  source_list : waiter_script info_list_call

/-- The calls of `uac_pa_open` before its handshake loop (lines 563-577). -/
def open_prologue : List Event :=
  [Event.mainloop_new, Event.context_new, Event.context_set_state_callback,
   Event.context_connect, Event.mainloop_start, Event.mainloop_lock]

/-- The function `uac_pa_open` of lines 559-606. `uac` is the owning context,
`mainloop` and `pa_ctx` the handles the library returns, `s` the connection
state the handshake loop reads first and `wakes` the states it reads after each
wake-up, `d` the scripts of the discovery queries. The result is the returned
pointer (`none` for `NULL`, otherwise the context it points to) and the calls
made. The parameters `dev` and `conf` are not read by the code. -/
def uac_pa_open (uac : Nat) (mainloop pa_ctx : Nat)
    (s : pa_context_state_t) (wakes : List pa_context_state_t) (d : discovery_script) :
    Option (Option pulse_ctx × List Event) :=
  let c := { pulse_ctx_zero with pa_mainloop := mainloop, pa_ctx := pa_ctx }
  match open_wait_loop s wakes c with
  | none => none
  | some (c, e0) =>
    let e := open_prologue ++ e0 ++ [Event.mainloop_unlock]
    if c.pa_state ≠ PA_CONTEXT_READY then
      some (none, e ++ [Event.mainloop_stop, Event.free_ctx])
    else
      match pulse_get_server_info c d.server_info with
      | none => none
      | some (_, c, e1) =>
        match pulse_get_sink_list c d.sink_list with
        | none => none
        | some (_, c, e2) =>
          match pulse_get_source_list c d.source_list with
          | none => none
          | some (_, c, e3) =>
            some (some { c with parent := uac }, e ++ e1 ++ e2 ++ e3)

/-! ## Stream negotiation (lines 608-676) -/

/-- Lines 616-618 of `uac_pa_start_stream`: the sample spec is filled from the
negotiated format, rate and channel count. -/
def start_stream_spec (c : pulse_ctx) : pulse_ctx :=
  { c with
    pa_sample_spec :=
      { format := c.format, rate := c.samples_per_sec, channels := c.channels } }

/-- Lines 625-627 of `uac_pa_start_stream`: the frame size is cached and the
channel map built from the layout tag. -/
def start_stream_setup (c : pulse_ctx) : pulse_ctx :=
  let c := { c with bytes_per_frame := pa_frame_size c.pa_sample_spec }
  { c with pa_channel_map := (pulse_channel_map c.pa_channel_map c.speakers).2 }

/-- The wait loop of `uac_pa_start_stream` (lines 665-673): `s` is the stream
state just read and stored in `pa_stream_state`, `wakes` the states read after
each later wake-up. -/
def stream_wait_loop :
    pa_stream_state_t → List pa_stream_state_t → pulse_ctx → Option (pulse_ctx × List Event)
  | s, wakes, c =>
    let c1 := { c with pa_stream_state := s }
    if s ≠ PA_STREAM_READY then
      if s = PA_STREAM_FAILED ∨ s = PA_STREAM_TERMINATED then some (c1, [])
      else
        match wakes with
        | [] => none
        | s1 :: ws =>
            (stream_wait_loop s1 ws c1).map (fun r => (r.1, Event.mainloop_wait :: r.2))
    else some (c1, [])

/-- The calls of `uac_pa_start_stream` between the channel map and its wait
loop (lines 631-664). -/
def start_stream_calls : List Event :=
  [Event.stream_new, Event.mainloop_lock, Event.stream_set_read_callback,
   Event.stream_set_write_callback, Event.stream_set_state_callback,
   Event.stream_set_overflow_callback, Event.stream_set_underflow_callback,
   Event.stream_set_latency_update_callback, Event.mainloop_unlock,
   Event.mainloop_lock, Event.stream_connect_record, Event.mainloop_unlock,
   Event.mainloop_lock]

/-- The function `uac_pa_start_stream` of lines 608-676, on the backend context
`c` behind `uac->opaque`. `sc` is the script of the source-info query, `stream`
the handle `pa_stream_new_with_proplist` returns, `s` the stream state the wait
loop reads first and `wakes` the states it reads after each wake-up. The value
of `pa_stream_connect_record` is only printed. The result is the return value,
the context afterwards and the calls made. -/
def uac_pa_start_stream (c : pulse_ctx) (sc : waiter_script source_info_call) (stream : Nat)
    (s : pa_stream_state_t) (wakes : List pa_stream_state_t) :
    Option (Int × pulse_ctx × List Event) :=
  match pulse_get_source_info c sc with
  | none => none
  | some (_, c, e0) =>
    let c := start_stream_spec c
    if !pa_sample_spec_valid c.pa_sample_spec then some (-1, c, e0)
    else
      let c := start_stream_setup c
      let c := { c with pa_stream := stream }
      match stream_wait_loop s wakes c with
      | none => none
      | some (c, e1) =>
        some (0, c, e0 ++ start_stream_calls ++ e1 ++ [Event.mainloop_unlock])

/-! ## Frame delivery (lines 76-90 and 422-463) -/

/-- The constant `NSEC_PER_SEC` of line 73. -/
def NSEC_PER_SEC : Nat := 1000000000

/-- An unsigned division as the machine performs it: no result on a zero
divisor. -/
def udiv (a b : Nat) : Option Nat :=
  if b = 0 then none else some (a / b)

/-- A reading of the monotonic clock. -/
structure timespec where
  tv_sec : Nat
  tv_nsec : Nat
  deriving DecidableEq, Repr

/-- The function `os_gettime_ns` of lines 76-81 on the clock reading `ts`:
64-bit unsigned arithmetic. -/
def os_gettime_ns (ts : timespec) : Nat :=
  (ts.tv_sec * 1000000000 + ts.tv_nsec) % 2 ^ 64

/-- The function `samples_to_ns` of lines 82-85: `frames` is a `size_t` and
`rate` a `uint32_t`; the product is formed in 64-bit unsigned arithmetic and
then divided by the rate. -/
def samples_to_ns (frames rate : Nat) : Option Nat :=
  udiv ((frames * NSEC_PER_SEC) % 2 ^ 64) rate

/-- The function `get_sample_time` of lines 87-90 on the clock reading `ts`:
the rate is narrowed to 32 bits for `samples_to_ns`, the difference is taken
in 64-bit unsigned arithmetic. -/
def get_sample_time (ts : timespec) (frames rate : Nat) : Option Nat :=
  (samples_to_ns frames (rate % 2 ^ 32)).map
    (fun d => (os_gettime_ns ts + 2 ^ 64 - d) % 2 ^ 64)

/-- What `pa_stream_peek` hands back: the buffer (a token, `0` for `NULL`) and
its byte count. -/
structure peek_result where
  frames : Nat
  nbytes : Nat
  deriving DecidableEq, Repr

/-- The callback `read_cb` of lines 422-463, on the stream token `ps`, the
result `pk` of the peek and the clock reading `ts`. The result is the frame
descriptor built in `out` (if the callback gets that far) and the calls made;
there is no result when a division has a zero divisor. The context is only
read. -/
def read_cb (ps : Nat) (_bytes : Nat) (pk : peek_result) (ts : timespec) (c : pulse_ctx) :
    Option (Option audio_frame × List Event) :=
  if c.pa_stream ≠ ps then some (none, [])
  else if pk.nbytes = 0 then some (none, [Event.stream_peek, Event.mainloop_signal])
  else if pk.frames = 0 then
    some (none, [Event.stream_peek, Event.stream_drop, Event.mainloop_signal])
  else
    match udiv pk.nbytes c.bytes_per_frame with
    | none => none
    | some frames =>
      match get_sample_time ts frames c.samples_per_sec with
      | none => none
      | some timestamp =>
        some (some
          { samples_per_sec := c.samples_per_sec
            format := pulse_to_sample_format c.format
            data0 := pk.frames
            frames := frames
            timestamp := timestamp },
          [Event.stream_peek, Event.stream_drop, Event.mainloop_signal])

/-- The callback `stream_state_cb` of lines 485-511. -/
def stream_state_cb (ps : Nat) (c : pulse_ctx) : pulse_ctx × List Event :=
  if c.pa_stream ≠ ps then (c, [])
  else (c, [Event.mainloop_signal])

/-! ## Concrete inputs used below -/

/-- A freshly opened backend context whose connection token is 1. -/
def ctx_live : pulse_ctx :=
  { pulse_ctx_zero with pa_mainloop := 1, pa_ctx := 1, pa_state := PA_CONTEXT_READY }

/-- A source-info query on the ready connection that delivers the report
`spec` as a data item, then the end-of-list item, and completes. -/
def script_report (spec : pa_sample_spec) : waiter_script source_info_call :=
  { ctx_state := PA_CONTEXT_READY
    ctx_wakes := []
    op := some (PA_OPERATION_RUNNING,
      [{ calls := [{ pc := 1, info := { sample_spec := spec }, eol := 0 },
                   { pc := 1, info := { sample_spec := spec }, eol := 1 }]
         state := PA_OPERATION_DONE }]) }

/-- The handshake loop stops at this state: READY, FAILED or TERMINATED. -/
def ctx_settled (s : pa_context_state_t) : Bool :=
  s = PA_CONTEXT_READY || s = PA_CONTEXT_FAILED || s = PA_CONTEXT_TERMINATED

/-- The query described by the script comes to an end: the connection is not
good at entry, or it is seen READY and then either no operation handle is
returned or the operation is seen in a state other than RUNNING. -/
def waiter_script.settles {κ : Type} (sc : waiter_script κ) : Bool :=
  !PA_CONTEXT_IS_GOOD sc.ctx_state ||
  ((sc.ctx_state :: sc.ctx_wakes).any (fun s => s = PA_CONTEXT_READY) &&
    match sc.op with
    | none => true
    | some (st, wakes) =>
        (st :: wakes.map (fun w => w.state)).any (fun s => s ≠ PA_OPERATION_RUNNING))

/-- A query on the ready connection that completes at the first wake-up
without any callback. -/
def script_done (κ : Type) : waiter_script κ :=
  { ctx_state := PA_CONTEXT_READY
    ctx_wakes := []
    op := some (PA_OPERATION_RUNNING, [{ calls := [], state := PA_OPERATION_DONE }]) }

/-- A query on the ready connection whose operation is cancelled while the
caller waits. -/
def script_cancelled (κ : Type) : waiter_script κ :=
  { ctx_state := PA_CONTEXT_READY
    ctx_wakes := []
    op := some (PA_OPERATION_RUNNING, [{ calls := [], state := PA_OPERATION_CANCELLED }]) }

/-- Three discovery queries that complete at once. -/
def discovery_done : discovery_script :=
  { server_info := script_done server_info_call
    sink_list := script_done info_list_call
    source_list := script_done info_list_call }

/-- The live context after the report of the spec example has been stored:
S16LE, 44100 Hz, 2 channels. -/
def ctx_negotiated : pulse_ctx :=
  { ctx_live with
    format := PA_SAMPLE_S16LE
    samples_per_sec := 44100
    channels := 2
    speakers := SPEAKERS_STEREO }

/-- The negotiated context once the record stream with token 2 is open and
the frame size of 4 bytes is cached. -/
def ctx_streaming : pulse_ctx :=
  { ctx_negotiated with pa_stream := 2, bytes_per_frame := 4 }

/-- A server-info record as a server reports it: a stereo S16LE default at
44100 Hz. -/
def server_info_sample : pa_server_info :=
  { user_name := "user"
    host_name := "host"
    server_version := "13.0"
    server_name := "pulseaudio"
    sample_spec := { format := PA_SAMPLE_S16LE, rate := 44100, channels := 2 }
    default_sink_name := "sink0"
    default_source_name := "source0"
    cookie := 0
    channel_map := (pulse_channel_map pulse_ctx_zero.pa_channel_map SPEAKERS_STEREO).2 }

/-- The stream wait loop stops at this state: READY, FAILED or TERMINATED. -/
def stream_settled (s : pa_stream_state_t) : Bool :=
  s = PA_STREAM_READY || s = PA_STREAM_FAILED || s = PA_STREAM_TERMINATED

/-! ## Theorems -/

/-- The handshake loop at a settled state: it stores the state and stops. -/
lemma open_wait_loop_settled (s : pa_context_state_t) (wakes : List pa_context_state_t)
    (c : pulse_ctx) (h : ctx_settled s = true) :
    open_wait_loop s wakes c = some ({ c with pa_state := s }, []) := by
  rw [open_wait_loop.eq_def]
  cases s <;> simp [ctx_settled] at h ⊢

/-- The handshake loop at an unsettled state with no wake-up left. -/
lemma open_wait_loop_nil (s : pa_context_state_t) (c : pulse_ctx)
    (h : ctx_settled s = false) : open_wait_loop s [] c = none := by
  rw [open_wait_loop.eq_def]
  cases s <;> simp [ctx_settled] at h ⊢

/-- The handshake loop at an unsettled state: it waits and goes on with the
next state. -/
lemma open_wait_loop_cons (s s1 : pa_context_state_t) (ws : List pa_context_state_t)
    (c : pulse_ctx) (h : ctx_settled s = false) :
    open_wait_loop s (s1 :: ws) c =
      (open_wait_loop s1 ws { c with pa_state := s }).map
        (fun r => (r.1, Event.mainloop_wait :: r.2)) := by
  rw [open_wait_loop.eq_def]
  cases s <;> simp [ctx_settled] at h ⊢

/-- The handshake loop in closed form: it ends at the first settled state of
the observed sequence, having waited once per state before it. -/
lemma open_wait_loop_eq (wakes : List pa_context_state_t) :
    ∀ (s : pa_context_state_t) (c : pulse_ctx),
      open_wait_loop s wakes c =
        ((s :: wakes).find? ctx_settled).map
          (fun t => ({ c with pa_state := t },
            List.replicate ((s :: wakes).findIdx ctx_settled) Event.mainloop_wait)) := by
  induction wakes with
  | nil =>
    intro s c
    cases h : ctx_settled s
    · rw [open_wait_loop_nil s c h]
      simp [List.find?_cons, h]
    · rw [open_wait_loop_settled s [] c h]
      simp [List.find?_cons, List.findIdx_cons, h]
  | cons s1 ws ih =>
    intro s c
    cases h : ctx_settled s
    · rw [open_wait_loop_cons s s1 ws c h, ih]
      rw [List.find?_cons (a := s), List.findIdx_cons (b := s), h]
      cases hf : List.find? ctx_settled (s1 :: ws) with
      | none => simp
      | some t => simp [List.replicate_succ]
    · rw [open_wait_loop_settled s (s1 :: ws) c h]
      simp [List.find?_cons, List.findIdx_cons, h]

/-- The loop of `pulse_context_ready` ends when READY is among the states. -/
lemma context_ready_loop_some (wakes : List pa_context_state_t) :
    ∀ s : pa_context_state_t,
      (s :: wakes).any (fun s => decide (s = PA_CONTEXT_READY)) = true →
      ∃ e, context_ready_loop s wakes = some e := by
  induction wakes with
  | nil =>
    intro s h
    rw [context_ready_loop.eq_def]
    cases s <;> simp at h ⊢
  | cons s1 ws ih =>
    intro s h
    rw [context_ready_loop.eq_def]
    by_cases hs : s = PA_CONTEXT_READY
    · simp [hs]
    · have h1 : (s1 :: ws).any (fun s => decide (s = PA_CONTEXT_READY)) = true := by
        rw [List.any_cons] at h
        simpa [hs] using h
      obtain ⟨e, he⟩ := ih s1 h1
      simp [hs, he]

/-- The shared wait loop hands back the value of `ret` it was entered with:
its test for CANCELLED sits under the test for RUNNING and never fires. -/
lemma operation_wait_loop_ret {κ : Type} (cb : κ → pulse_ctx → pulse_ctx × List Event)
    (ret : Int) (wakes : List (op_wake κ)) :
    ∀ (st : pa_operation_state_t) (c : pulse_ctx) (r : Int × pulse_ctx × List Event),
      operation_wait_loop cb ret st wakes c = some r → r.1 = ret := by
  induction wakes with
  | nil =>
    intro st c r h
    rw [operation_wait_loop.eq_def] at h
    cases st <;> simp at h <;> simp [← h]
  | cons w ws ih =>
    intro st c r h
    rw [operation_wait_loop.eq_def] at h
    cases st
    · simp only [reduceCtorEq, if_true, if_false, Option.map_eq_some'] at h
      obtain ⟨r1, hr1, hr⟩ := h
      rw [← hr]
      exact ih _ _ r1 hr1
    · simp at h
      simp [← h]
    · simp at h
      simp [← h]

/-- The shared wait loop ends when a state other than RUNNING is observed. -/
lemma operation_wait_loop_some {κ : Type} (cb : κ → pulse_ctx → pulse_ctx × List Event)
    (ret : Int) (wakes : List (op_wake κ)) :
    ∀ (st : pa_operation_state_t) (c : pulse_ctx),
      (st :: wakes.map (fun w => w.state)).any
        (fun s => decide (s ≠ PA_OPERATION_RUNNING)) = true →
      ∃ r, operation_wait_loop cb ret st wakes c = some r := by
  induction wakes with
  | nil =>
    intro st c h
    rw [operation_wait_loop.eq_def]
    cases st <;> simp at h ⊢
  | cons w ws ih =>
    intro st c h
    rw [operation_wait_loop.eq_def]
    cases st
    · have h1 : (w.state :: ws.map (fun w => w.state)).any
          (fun s => decide (s ≠ PA_OPERATION_RUNNING)) = true := by
        simpa using h
      obtain ⟨r, hr⟩ := ih w.state (run_calls cb w.calls c) h1
      simp [hr]
    · simp
    · simp

/-- A query whose script settles returns. -/
lemma pulse_query_settles {κ : Type} (submit : Event)
    (cb : κ → pulse_ctx → pulse_ctx × List Event) (c : pulse_ctx) (sc : waiter_script κ)
    (h : sc.settles = true) : ∃ r, pulse_query submit cb c sc = some r := by
  unfold pulse_query pulse_context_ready
  unfold waiter_script.settles at h
  cases hg : PA_CONTEXT_IS_GOOD sc.ctx_state
  · simp
  · simp only [hg, Bool.not_true, Bool.false_or, Bool.and_eq_true] at h
    obtain ⟨e, he⟩ := context_ready_loop_some sc.ctx_wakes sc.ctx_state h.1
    rcases hop : sc.op with _ | ⟨st, wakes⟩
    · simp [he]
    · have h2 := h.2
      rw [hop] at h2
      obtain ⟨r, hr⟩ := operation_wait_loop_some cb 0 wakes st c h2
      simp [he, hr]

/-- The discovery part of `uac_pa_open` (lines 593-599) returns a non-null
handle with the back-reference set when its three queries settle. -/
lemma open_discovery_some (uac : Nat) (c0 : pulse_ctx) (d : discovery_script) (e : List Event)
    (h1 : d.server_info.settles = true) (h2 : d.sink_list.settles = true)
    (h3 : d.source_list.settles = true) :
    ∃ c e1,
      (match pulse_get_server_info c0 d.server_info with
        | none => none
        | some (_, c, e1) =>
          match pulse_get_sink_list c d.sink_list with
          | none => none
          | some (_, c, e2) =>
            match pulse_get_source_list c d.source_list with
            | none => none
            | some (_, c, e3) =>
              some (some { c with parent := uac }, e ++ e1 ++ e2 ++ e3)) =
        some (some c, e1) ∧ c.parent = uac := by
  obtain ⟨⟨r1, c1, e1⟩, hq1⟩ : ∃ r, pulse_get_server_info c0 d.server_info = some r :=
    pulse_query_settles _ _ _ _ h1
  obtain ⟨⟨r2, c2, e2⟩, hq2⟩ : ∃ r, pulse_get_sink_list c1 d.sink_list = some r :=
    pulse_query_settles _ _ _ _ h2
  obtain ⟨⟨r3, c3, e3⟩, hq3⟩ : ∃ r, pulse_get_source_list c2 d.source_list = some r :=
    pulse_query_settles _ _ _ _ h3
  rw [hq1]
  simp only []
  rw [hq2]
  simp only []
  rw [hq3]
  exact ⟨_, _, rfl, rfl⟩

/-- The stream wait loop changes no field but `pa_stream_state`. -/
lemma stream_wait_loop_fields (wakes : List pa_stream_state_t) :
    ∀ (s : pa_stream_state_t) (c : pulse_ctx) (r : pulse_ctx × List Event),
      stream_wait_loop s wakes c = some r →
      r.1 = { c with pa_stream_state := r.1.pa_stream_state } := by
  induction wakes with
  | nil =>
    intro s c r h
    rw [stream_wait_loop.eq_def] at h
    cases s <;> simp at h <;> simp [← h]
  | cons s1 ws ih =>
    intro s c r h
    rw [stream_wait_loop.eq_def] at h
    cases s
    case PA_STREAM_READY => simp at h; simp [← h]
    case PA_STREAM_FAILED => simp at h; simp [← h]
    case PA_STREAM_TERMINATED => simp at h; simp [← h]
    all_goals
      simp only [ne_eq, reduceCtorEq, not_false_eq_true, if_true, or_self, if_false,
        Option.map_eq_some'] at h
      obtain ⟨r1, hr1, hr⟩ := h
      have := ih _ _ r1 hr1
      rw [← hr]
      simp only []
      rw [this]

/-- The stream wait loop at a settled state: it stores the state and stops. -/
lemma stream_wait_loop_settled (s : pa_stream_state_t) (wakes : List pa_stream_state_t)
    (c : pulse_ctx) (h : stream_settled s = true) :
    stream_wait_loop s wakes c = some ({ c with pa_stream_state := s }, []) := by
  rw [stream_wait_loop.eq_def]
  cases s <;> simp [stream_settled] at h ⊢

/-- The stream wait loop at an unsettled state with no wake-up left. -/
lemma stream_wait_loop_nil (s : pa_stream_state_t) (c : pulse_ctx)
    (h : stream_settled s = false) : stream_wait_loop s [] c = none := by
  rw [stream_wait_loop.eq_def]
  cases s <;> simp [stream_settled] at h ⊢

/-- The stream wait loop at an unsettled state: it waits and goes on with the
next state. -/
lemma stream_wait_loop_cons (s s1 : pa_stream_state_t) (ws : List pa_stream_state_t)
    (c : pulse_ctx) (h : stream_settled s = false) :
    stream_wait_loop s (s1 :: ws) c =
      (stream_wait_loop s1 ws { c with pa_stream_state := s }).map
        (fun r => (r.1, Event.mainloop_wait :: r.2)) := by
  rw [stream_wait_loop.eq_def]
  cases s <;> simp [stream_settled] at h ⊢

/-- The stream wait loop in closed form: it ends at the first settled state of
the observed sequence, having waited once per state before it. -/
lemma stream_wait_loop_eq (wakes : List pa_stream_state_t) :
    ∀ (s : pa_stream_state_t) (c : pulse_ctx),
      stream_wait_loop s wakes c =
        ((s :: wakes).find? stream_settled).map
          (fun t => ({ c with pa_stream_state := t },
            List.replicate ((s :: wakes).findIdx stream_settled) Event.mainloop_wait)) := by
  induction wakes with
  | nil =>
    intro s c
    cases h : stream_settled s
    · rw [stream_wait_loop_nil s c h]
      simp [List.find?_cons, h]
    · rw [stream_wait_loop_settled s [] c h]
      simp [List.find?_cons, List.findIdx_cons, h]
  | cons s1 ws ih =>
    intro s c
    cases h : stream_settled s
    · rw [stream_wait_loop_cons s s1 ws c h, ih]
      rw [List.find?_cons (a := s), List.findIdx_cons (b := s), h]
      cases hf : List.find? stream_settled (s1 :: ws) with
      | none => simp
      | some t => simp [List.replicate_succ]
    · rw [stream_wait_loop_settled s (s1 :: ws) c h]
      simp [List.find?_cons, List.findIdx_cons, h]

/-- A valid sample spec has at least one channel and a format of positive
width. -/
lemma pa_sample_spec_valid_pos (spec : pa_sample_spec) (h : pa_sample_spec_valid spec = true) :
    0 < spec.channels ∧ 0 < pa_sample_size_of_format spec.format := by
  unfold pa_sample_spec_valid at h
  simp only [Bool.and_eq_true, decide_eq_true_eq] at h
  obtain ⟨⟨⟨⟨_, _⟩, hc⟩, _⟩, hf⟩ := h
  refine ⟨hc, ?_⟩
  cases hfm : spec.format <;> simp [hfm, pa_sample_format_valid] at hf <;>
    simp [pa_sample_size_of_format]

/-- The frame size cached by lines 625-627 for a valid spec: channels times
sample width, positive. -/
lemma start_stream_setup_frame_size (c : pulse_ctx)
    (hv : pa_sample_spec_valid (start_stream_spec c).pa_sample_spec = true) :
    (start_stream_setup (start_stream_spec c)).bytes_per_frame =
        c.channels * pa_sample_size_of_format c.format ∧
    0 < (start_stream_setup (start_stream_spec c)).bytes_per_frame := by
  have hpos := pa_sample_spec_valid_pos _ hv
  have hb : (start_stream_setup (start_stream_spec c)).bytes_per_frame =
      c.channels * pa_sample_size_of_format c.format := by
    show pa_sample_size_of_format c.format * c.channels = _
    exact Nat.mul_comm _ _
  refine ⟨hb, ?_⟩
  rw [hb]
  exact Nat.mul_pos hpos.1 hpos.2

/-- The whole of `uac_pa_start_stream` in closed form once the source-info
query has returned the context `c` with a valid spec and the stream is seen
settled at `t`: it returns 0 with the set-up context, the stream token and
the state `t` stored. -/
lemma start_stream_valid_eq (c0 c : pulse_ctx) (sc : waiter_script source_info_call)
    (stream : Nat) (s : pa_stream_state_t) (wakes : List pa_stream_state_t) (ret : Int)
    (e0 : List Event) (t : pa_stream_state_t)
    (hq : pulse_get_source_info c0 sc = some (ret, c, e0))
    (hv : pa_sample_spec_valid (start_stream_spec c).pa_sample_spec = true)
    (hf : (s :: wakes).find? stream_settled = some t) :
    uac_pa_start_stream c0 sc stream s wakes =
      some (0,
        { start_stream_setup (start_stream_spec c) with
          pa_stream := stream, pa_stream_state := t },
        e0 ++ start_stream_calls ++
          List.replicate ((s :: wakes).findIdx stream_settled) Event.mainloop_wait ++
          [Event.mainloop_unlock]) := by
  unfold uac_pa_start_stream
  rw [hq]
  simp only [hv, Bool.not_true, Bool.false_eq_true, if_false, stream_wait_loop_eq, hf,
    Option.map_some']

/-- The function `uac_pa_start_stream` returns when its source-info query and
its stream come to an end. -/
lemma start_stream_returns (c0 : pulse_ctx) (sc : waiter_script source_info_call)
    (stream : Nat) (s : pa_stream_state_t) (wakes : List pa_stream_state_t)
    (t : pa_stream_state_t) (hsc : sc.settles = true)
    (hf : (s :: wakes).find? stream_settled = some t) :
    ∃ ret c1 e0 r, pulse_get_source_info c0 sc = some (ret, c1, e0) ∧
      uac_pa_start_stream c0 sc stream s wakes = some r ∧
      (pa_sample_spec_valid (start_stream_spec c1).pa_sample_spec = true →
        r.1 = 0 ∧ r.2.1.pa_stream_state = t ∧
        r.2.1.bytes_per_frame = c1.channels * pa_sample_size_of_format c1.format ∧
        0 < r.2.1.bytes_per_frame) ∧
      (pa_sample_spec_valid (start_stream_spec c1).pa_sample_spec = false → r.1 = -1) := by
  obtain ⟨⟨ret, c1, e0⟩, hq⟩ : ∃ r, pulse_get_source_info c0 sc = some r :=
    pulse_query_settles _ _ _ _ hsc
  cases hv : pa_sample_spec_valid (start_stream_spec c1).pa_sample_spec
  · refine ⟨ret, c1, e0, (-1, start_stream_spec c1, e0), hq, ?_, ?_, fun _ => rfl⟩
    · unfold uac_pa_start_stream
      rw [hq]
      simp only [hv, Bool.not_false, if_true]
    · intro h
      rw [hv] at h
      cases h
  · have hfs := start_stream_setup_frame_size c1 hv
    refine ⟨ret, c1, e0, _, hq, start_stream_valid_eq c0 c1 sc stream s wakes ret e0 t hq hv hf,
      fun _ => ⟨rfl, rfl, hfs.1, hfs.2⟩, ?_⟩
    intro h
    rw [hv] at h
    cases h

/-- The lookup gives SPEAKERS_UNKNOWN exactly outside the supported counts. -/
lemma channels_unknown_iff (n : Nat) :
    pulse_channels_to_speakers n = SPEAKERS_UNKNOWN ↔ n ∉ [1, 2, 3, 4, 5, 6, 8] := by
  match n with
  | 0 | 1 | 2 | 3 | 4 | 5 | 6 | 7 | 8 => decide
  | k + 9 =>
    have h : pulse_channels_to_speakers (k + 9) = SPEAKERS_UNKNOWN := rfl
    simp [h]

/-- The format mapper gives SAMPLE_FORMAT_UNKNOWN exactly outside the four
supported formats. -/
lemma format_unknown_iff (f : pa_sample_format_t) :
    pulse_to_sample_format f = SAMPLE_FORMAT_UNKNOWN ↔
      f ∉ [PA_SAMPLE_U8, PA_SAMPLE_S16LE, PA_SAMPLE_S32LE, PA_SAMPLE_FLOAT32LE] := by
  cases f <;> decide

/-- The context that `source_info_cb` leaves for a data item on the live
connection. -/
lemma source_info_cb_data (c : pulse_ctx) (info : pa_source_info) :
    (source_info_cb c.pa_ctx info 0 c).1 =
      { c with
        format :=
          if pulse_to_sample_format info.sample_spec.format = SAMPLE_FORMAT_UNKNOWN then
            PA_SAMPLE_FLOAT32LE
          else info.sample_spec.format
        samples_per_sec := info.sample_spec.rate
        channels :=
          if pulse_channels_to_speakers info.sample_spec.channels = SPEAKERS_UNKNOWN then 2
          else info.sample_spec.channels
        speakers := pulse_channels_to_speakers info.sample_spec.channels } := by
  simp [source_info_cb]

/-- C1: for every channel count, `pulse_channels_to_speakers` returns MONO for 1,
STEREO for 2, 2POINT1 for 3, 4POINT0 for 4, 4POINT1 for 5, 5POINT1 for 6,
7POINT1 for 8 and SPEAKERS_UNKNOWN for every other count (0, 7 and all counts
above 8 included). -/
theorem pulse_channels_to_speakers_table (n : Nat) :
    pulse_channels_to_speakers n =
      if n = 1 then SPEAKERS_MONO
      else if n = 2 then SPEAKERS_STEREO
      else if n = 3 then SPEAKERS_2POINT1
      else if n = 4 then SPEAKERS_4POINT0
      else if n = 5 then SPEAKERS_4POINT1
      else if n = 6 then SPEAKERS_5POINT1
      else if n = 8 then SPEAKERS_7POINT1
      else SPEAKERS_UNKNOWN := by
  match n with
  | 0 | 1 | 2 | 3 | 4 | 5 | 6 | 7 | 8 => rfl
  | k + 9 =>
    have h : pulse_channels_to_speakers (k + 9) = SPEAKERS_UNKNOWN := rfl
    rw [h]
    simp

/-- C2: a source report (format f, rate r, channel count ch) delivered to
`source_info_cb` as a data item (eol = 0) on the live connection leaves
format = f when f is one of U8, S16LE, S32LE, FLOAT32LE and FLOAT32LE otherwise,
samples_per_sec = r, and channels = ch when ch is one of 1, 2, 3, 4, 5, 6, 8 and
2 otherwise; the stored format never maps to SAMPLE_FORMAT_UNKNOWN. -/
theorem source_info_cb_negotiated (c : pulse_ctx) (info : pa_source_info) :
    ((source_info_cb c.pa_ctx info 0 c).1.format =
        if info.sample_spec.format ∈
            [PA_SAMPLE_U8, PA_SAMPLE_S16LE, PA_SAMPLE_S32LE, PA_SAMPLE_FLOAT32LE] then
          info.sample_spec.format
        else PA_SAMPLE_FLOAT32LE) ∧
    (source_info_cb c.pa_ctx info 0 c).1.samples_per_sec = info.sample_spec.rate ∧
    ((source_info_cb c.pa_ctx info 0 c).1.channels =
        if info.sample_spec.channels ∈ [1, 2, 3, 4, 5, 6, 8] then info.sample_spec.channels
        else 2) ∧
    pulse_to_sample_format (source_info_cb c.pa_ctx info 0 c).1.format ≠
      SAMPLE_FORMAT_UNKNOWN := by
  rw [source_info_cb_data]
  refine ⟨?_, rfl, ?_, ?_⟩
  · show (if _ then _ else _) = _
    by_cases h : info.sample_spec.format ∈
        [PA_SAMPLE_U8, PA_SAMPLE_S16LE, PA_SAMPLE_S32LE, PA_SAMPLE_FLOAT32LE]
    · rw [if_pos h, if_neg (fun hu => (format_unknown_iff _).1 hu h)]
    · rw [if_neg h, if_pos ((format_unknown_iff _).2 h)]
  · show (if _ then _ else _) = _
    by_cases h : info.sample_spec.channels ∈ [1, 2, 3, 4, 5, 6, 8]
    · rw [if_pos h, if_neg (fun hu => (channels_unknown_iff _).1 hu h)]
    · rw [if_neg h, if_pos ((channels_unknown_iff _).2 h)]
  · show pulse_to_sample_format (if _ then _ else _) ≠ _
    by_cases h : pulse_to_sample_format info.sample_spec.format = SAMPLE_FORMAT_UNKNOWN
    · rw [if_pos h]
      decide
    · rw [if_neg h]
      exact h

/-- C4: for every known layout `pulse_channel_map` returns 0 and writes the
documented channel count and leading positions, whatever the map held before:
MONO 1 [MONO]; STEREO 2 [FL, FR]; 2POINT1 3 [FL, FR, LFE]; 4POINT0 4
[FL, FR, FC, RC]; 4POINT1 5 [FL, FR, FC, LFE, RC]; 5POINT1 6
[FL, FR, FC, LFE, RL, RR]; 7POINT1 8 [FL, FR, FC, LFE, RL, RR, SL, SR]. For
every supported count n the map built from the lookup of n has n channels. -/
theorem pulse_channel_map_known (pm : pa_channel_map) :
    (∀ sp, (pulse_channel_map pm sp).1 = 0) ∧
    ((pulse_channel_map pm SPEAKERS_MONO).2.channels = 1 ∧
      active_positions (pulse_channel_map pm SPEAKERS_MONO).2 = [PA_CHANNEL_POSITION_MONO]) ∧
    ((pulse_channel_map pm SPEAKERS_STEREO).2.channels = 2 ∧
      active_positions (pulse_channel_map pm SPEAKERS_STEREO).2 =
        [PA_CHANNEL_POSITION_FRONT_LEFT, PA_CHANNEL_POSITION_FRONT_RIGHT]) ∧
    ((pulse_channel_map pm SPEAKERS_2POINT1).2.channels = 3 ∧
      active_positions (pulse_channel_map pm SPEAKERS_2POINT1).2 =
        [PA_CHANNEL_POSITION_FRONT_LEFT, PA_CHANNEL_POSITION_FRONT_RIGHT,
         PA_CHANNEL_POSITION_LFE]) ∧
    ((pulse_channel_map pm SPEAKERS_4POINT0).2.channels = 4 ∧
      active_positions (pulse_channel_map pm SPEAKERS_4POINT0).2 =
        [PA_CHANNEL_POSITION_FRONT_LEFT, PA_CHANNEL_POSITION_FRONT_RIGHT,
         PA_CHANNEL_POSITION_FRONT_CENTER, PA_CHANNEL_POSITION_REAR_CENTER]) ∧
    ((pulse_channel_map pm SPEAKERS_4POINT1).2.channels = 5 ∧
      active_positions (pulse_channel_map pm SPEAKERS_4POINT1).2 =
        [PA_CHANNEL_POSITION_FRONT_LEFT, PA_CHANNEL_POSITION_FRONT_RIGHT,
         PA_CHANNEL_POSITION_FRONT_CENTER, PA_CHANNEL_POSITION_LFE,
         PA_CHANNEL_POSITION_REAR_CENTER]) ∧
    ((pulse_channel_map pm SPEAKERS_5POINT1).2.channels = 6 ∧
      active_positions (pulse_channel_map pm SPEAKERS_5POINT1).2 =
        [PA_CHANNEL_POSITION_FRONT_LEFT, PA_CHANNEL_POSITION_FRONT_RIGHT,
         PA_CHANNEL_POSITION_FRONT_CENTER, PA_CHANNEL_POSITION_LFE,
         PA_CHANNEL_POSITION_REAR_LEFT, PA_CHANNEL_POSITION_REAR_RIGHT]) ∧
    ((pulse_channel_map pm SPEAKERS_7POINT1).2.channels = 8 ∧
      active_positions (pulse_channel_map pm SPEAKERS_7POINT1).2 =
        [PA_CHANNEL_POSITION_FRONT_LEFT, PA_CHANNEL_POSITION_FRONT_RIGHT,
         PA_CHANNEL_POSITION_FRONT_CENTER, PA_CHANNEL_POSITION_LFE,
         PA_CHANNEL_POSITION_REAR_LEFT, PA_CHANNEL_POSITION_REAR_RIGHT,
         PA_CHANNEL_POSITION_SIDE_LEFT, PA_CHANNEL_POSITION_SIDE_RIGHT]) ∧
    (∀ n ∈ [1, 2, 3, 4, 5, 6, 8],
      (pulse_channel_map pm (pulse_channels_to_speakers n)).2.channels = n) := by
  refine ⟨fun sp => by cases sp <;> rfl, ⟨rfl, rfl⟩, ⟨rfl, rfl⟩, ⟨rfl, rfl⟩, ⟨rfl, rfl⟩,
    ⟨rfl, rfl⟩, ⟨rfl, rfl⟩, ⟨rfl, rfl⟩, ?_⟩
  intro n hn
  simp only [List.mem_cons, List.mem_singleton, List.not_mem_nil, or_false] at hn
  rcases hn with h | h | h | h | h | h | h <;> subst h <;> rfl

/-- C4 at a concrete input: the report of the spec example (2 channels) over a
zeroed map gives the stereo map with exactly FL and FR active. -/
theorem pulse_channel_map_known_witness :
    (2 ∈ [1, 2, 3, 4, 5, 6, 8]) ∧
    (pulse_channel_map pulse_ctx_zero.pa_channel_map (pulse_channels_to_speakers 2)).2.channels = 2 ∧
    active_positions (pulse_channel_map pulse_ctx_zero.pa_channel_map SPEAKERS_STEREO).2 =
      [PA_CHANNEL_POSITION_FRONT_LEFT, PA_CHANNEL_POSITION_FRONT_RIGHT] :=
  ⟨by decide,
   (pulse_channel_map_known pulse_ctx_zero.pa_channel_map).2.2.2.2.2.2.2.2 2 (by decide),
   (pulse_channel_map_known pulse_ctx_zero.pa_channel_map).2.2.1.2⟩

/-- C5, the code at the failing input: the device reports 7 channels (S16LE,
44100 Hz), the query completes and the stream becomes ready. `uac_pa_start_stream`
returns 0 with a sample spec of 2 channels and a channel map of 0 channels: the
map is not the stereo map and its count differs from that of the spec. -/
theorem start_stream_unknown_layout_map :
    (uac_pa_start_stream ctx_live
        (script_report { format := PA_SAMPLE_S16LE, rate := 44100, channels := 7 }) 2
        PA_STREAM_CREATING [PA_STREAM_READY]).map
      (fun r => (r.1, r.2.1.speakers, r.2.1.pa_sample_spec.channels,
        r.2.1.pa_channel_map.channels, active_positions r.2.1.pa_channel_map)) =
      some (0, SPEAKERS_UNKNOWN, 2, 0, []) := by
  rfl

/-- C6, the code at the failing input: the connection is READY, the submission
returns a handle, the operation is RUNNING when first read and CANCELLED at
the wake-up. Each of the four query functions returns 0, not -1. -/
theorem pulse_get_cancelled_returns_zero :
    (pulse_get_server_info ctx_live (script_cancelled server_info_call)).map (fun r => r.1) =
      some 0 ∧
    (pulse_get_sink_list ctx_live (script_cancelled info_list_call)).map (fun r => r.1) =
      some 0 ∧
    (pulse_get_source_list ctx_live (script_cancelled info_list_call)).map (fun r => r.1) =
      some 0 ∧
    (pulse_get_source_info ctx_live (script_cancelled source_info_call)).map (fun r => r.1) =
      some 0 := by
  refine ⟨?_, ?_, ?_, ?_⟩ <;> rfl

/-- C7: over the connection states the handshake loop of `uac_pa_open` reads
(the first one `s`, then one per wake-up), with the discovery queries coming to
an end: when READY is the first settled state, open returns a non-null handle
whose back-reference is the owner; when FAILED or TERMINATED is the first, open
waits once per earlier state, unlocks, stops the main loop, frees the context
and returns NULL, with no discovery call; when no settled state is read the
caller stays suspended. Whatever open returns, the handle is non-null exactly
when READY was the first settled state. -/
theorem uac_pa_open_handshake (uac mainloop pa_ctx : Nat) (s : pa_context_state_t)
    (wakes : List pa_context_state_t) (d : discovery_script) :
    ((s :: wakes).find? ctx_settled = some PA_CONTEXT_READY →
      d.server_info.settles = true → d.sink_list.settles = true →
      d.source_list.settles = true →
      ∃ c e, uac_pa_open uac mainloop pa_ctx s wakes d = some (some c, e) ∧ c.parent = uac) ∧
    ((s :: wakes).find? ctx_settled = some PA_CONTEXT_FAILED ∨
        (s :: wakes).find? ctx_settled = some PA_CONTEXT_TERMINATED →
      uac_pa_open uac mainloop pa_ctx s wakes d =
        some (none,
          open_prologue ++
            List.replicate ((s :: wakes).findIdx ctx_settled) Event.mainloop_wait ++
            [Event.mainloop_unlock] ++ [Event.mainloop_stop, Event.free_ctx])) ∧
    ((s :: wakes).find? ctx_settled = none →
      uac_pa_open uac mainloop pa_ctx s wakes d = none) ∧
    (∀ r, uac_pa_open uac mainloop pa_ctx s wakes d = some r →
      (r.1.isSome = true ↔ (s :: wakes).find? ctx_settled = some PA_CONTEXT_READY)) := by
  refine ⟨?_, ?_, ?_, ?_⟩
  · intro hf h1 h2 h3
    unfold uac_pa_open
    simp only [open_wait_loop_eq, hf, Option.map_some', ne_eq, not_true_eq_false, if_false]
    exact open_discovery_some uac _ d _ h1 h2 h3
  · intro hf
    unfold uac_pa_open
    rcases hf with hf | hf <;> simp [open_wait_loop_eq, hf]
  · intro hf
    unfold uac_pa_open
    simp [open_wait_loop_eq, hf]
  · intro r hr
    unfold uac_pa_open at hr
    simp only [open_wait_loop_eq] at hr
    cases hf : List.find? ctx_settled (s :: wakes) with
    | none => simp [hf] at hr
    | some t =>
      have ht : ctx_settled t = true := List.find?_some hf
      simp only [hf, Option.map_some'] at hr
      cases t <;> simp [ctx_settled] at ht
      · revert hr
        simp only [ne_eq, not_true_eq_false, if_false]
        cases pulse_get_server_info _ d.server_info with
        | none => simp
        | some q1 =>
          obtain ⟨r1, c1, e1⟩ := q1
          simp only []
          cases pulse_get_sink_list c1 d.sink_list with
          | none => simp
          | some q2 =>
            obtain ⟨r2, c2, e2⟩ := q2
            simp only []
            cases pulse_get_source_list c2 d.source_list with
            | none => simp
            | some q3 =>
              obtain ⟨r3, c3, e3⟩ := q3
              intro hr
              simp only [Option.some.injEq] at hr
              simp [← hr]
      · simp at hr
        simp [← hr]
      · simp at hr
        simp [← hr]

/-- C7 at concrete inputs: Connecting then Ready gives a handle, Connecting
then Failed gives NULL after stopping the main loop and freeing the context. -/
theorem uac_pa_open_handshake_witness :
    (∃ c e, uac_pa_open 7 1 1 PA_CONTEXT_CONNECTING [PA_CONTEXT_READY] discovery_done =
        some (some c, e) ∧ c.parent = 7) ∧
    uac_pa_open 7 1 1 PA_CONTEXT_CONNECTING [PA_CONTEXT_FAILED] discovery_done =
      some (none,
        open_prologue ++
          List.replicate
            ((PA_CONTEXT_CONNECTING :: [PA_CONTEXT_FAILED]).findIdx ctx_settled)
            Event.mainloop_wait ++
          [Event.mainloop_unlock] ++ [Event.mainloop_stop, Event.free_ctx]) :=
  ⟨(uac_pa_open_handshake 7 1 1 PA_CONTEXT_CONNECTING [PA_CONTEXT_READY] discovery_done).1
      (by decide) (by decide) (by decide) (by decide),
   (uac_pa_open_handshake 7 1 1 PA_CONTEXT_CONNECTING [PA_CONTEXT_FAILED] discovery_done).2.1
      (Or.inl (by decide))⟩

/-- C8, the code at the failing input: the negotiated spec is valid (S16LE,
44100 Hz, 2 channels) and the record stream goes from CREATING to FAILED, or to
TERMINATED. `uac_pa_start_stream` returns 0, not a negative error. -/
theorem start_stream_failed_returns_zero :
    (uac_pa_start_stream ctx_live
        (script_report { format := PA_SAMPLE_S16LE, rate := 44100, channels := 2 }) 2
        PA_STREAM_CREATING [PA_STREAM_FAILED]).map
      (fun r => (r.1, pa_sample_spec_valid r.2.1.pa_sample_spec, r.2.1.pa_stream_state)) =
      some (0, true, PA_STREAM_FAILED) ∧
    (uac_pa_start_stream ctx_live
        (script_report { format := PA_SAMPLE_S16LE, rate := 44100, channels := 2 }) 2
        PA_STREAM_CREATING [PA_STREAM_TERMINATED]).map
      (fun r => (r.1, pa_sample_spec_valid r.2.1.pa_sample_spec, r.2.1.pa_stream_state)) =
      some (0, true, PA_STREAM_TERMINATED) := by
  constructor <;> rfl

/-- C9: when the sample spec built from the negotiated context `c` passes
validation, the frame size cached before the stream is opened is the channel
count times the byte width of one sample of the negotiated format (1 for U8,
2 for S16LE, 4 for S32LE and FLOAT32LE) and is positive. `uac_pa_start_stream`
itself, entered on any context whose source-info query hands back `c`, returns
0 as soon as the stream is seen settled, with that frame size in the context
it leaves and the negotiated format and channel count untouched; and it always
returns once its query and its stream come to an end, with 0 and this frame
size when the spec is valid and with -1 when it is not. -/
theorem start_stream_bytes_per_frame (c : pulse_ctx)
    (hv : pa_sample_spec_valid (start_stream_spec c).pa_sample_spec = true) :
    (start_stream_setup (start_stream_spec c)).bytes_per_frame =
        c.channels * pa_sample_size_of_format c.format ∧
    0 < (start_stream_setup (start_stream_spec c)).bytes_per_frame ∧
    (pa_sample_size_of_format PA_SAMPLE_U8 = 1 ∧ pa_sample_size_of_format PA_SAMPLE_S16LE = 2 ∧
      pa_sample_size_of_format PA_SAMPLE_S32LE = 4 ∧
      pa_sample_size_of_format PA_SAMPLE_FLOAT32LE = 4) ∧
    (∀ (c0 : pulse_ctx) (sc : waiter_script source_info_call) (stream : Nat)
        (s : pa_stream_state_t) (wakes : List pa_stream_state_t) (ret : Int)
        (e0 : List Event) (r : Int × pulse_ctx × List Event),
      pulse_get_source_info c0 sc = some (ret, c, e0) →
      uac_pa_start_stream c0 sc stream s wakes = some r →
      r.1 = 0 ∧ r.2.1.bytes_per_frame = c.channels * pa_sample_size_of_format c.format) ∧
    (∀ (c0 : pulse_ctx) (sc : waiter_script source_info_call) (stream : Nat)
        (s : pa_stream_state_t) (wakes : List pa_stream_state_t) (ret : Int)
        (e0 : List Event) (t : pa_stream_state_t),
      pulse_get_source_info c0 sc = some (ret, c, e0) →
      (s :: wakes).find? stream_settled = some t →
      ∃ c2,
        uac_pa_start_stream c0 sc stream s wakes =
          some (0, c2,
            e0 ++ start_stream_calls ++
              List.replicate ((s :: wakes).findIdx stream_settled) Event.mainloop_wait ++
              [Event.mainloop_unlock]) ∧
        c2.format = c.format ∧ c2.channels = c.channels ∧
        c2.samples_per_sec = c.samples_per_sec ∧
        c2.pa_stream = stream ∧ c2.pa_stream_state = t ∧
        c2.bytes_per_frame = c2.channels * pa_sample_size_of_format c2.format ∧
        0 < c2.bytes_per_frame) ∧
    (∀ (c0 : pulse_ctx) (sc : waiter_script source_info_call) (stream : Nat)
        (s : pa_stream_state_t) (wakes : List pa_stream_state_t) (t : pa_stream_state_t),
      sc.settles = true →
      (s :: wakes).find? stream_settled = some t →
      ∃ ret c1 e0 r, pulse_get_source_info c0 sc = some (ret, c1, e0) ∧
        uac_pa_start_stream c0 sc stream s wakes = some r ∧
        (pa_sample_spec_valid (start_stream_spec c1).pa_sample_spec = true →
          r.1 = 0 ∧ r.2.1.pa_stream_state = t ∧
          r.2.1.bytes_per_frame = c1.channels * pa_sample_size_of_format c1.format ∧
          0 < r.2.1.bytes_per_frame) ∧
        (pa_sample_spec_valid (start_stream_spec c1).pa_sample_spec = false → r.1 = -1)) := by
  have hfs := start_stream_setup_frame_size c hv
  refine ⟨hfs.1, hfs.2, ⟨rfl, rfl, rfl, rfl⟩, ?_, ?_, ?_⟩
  · intro c0 sc stream s wakes ret e0 r hq hr
    unfold uac_pa_start_stream at hr
    rw [hq] at hr
    simp only [hv, Bool.not_true, Bool.false_eq_true, if_false] at hr
    cases hl : stream_wait_loop s wakes
        { start_stream_setup (start_stream_spec c) with pa_stream := stream } with
    | none => simp [hl] at hr
    | some q =>
      obtain ⟨c2, e1⟩ := q
      have hfield := stream_wait_loop_fields wakes s _ _ hl
      simp only [hl, Option.some.injEq] at hr
      rw [← hr]
      refine ⟨rfl, ?_⟩
      exact (congrArg pulse_ctx.bytes_per_frame hfield).trans hfs.1
  · intro c0 sc stream s wakes ret e0 t hq hf
    exact ⟨_, start_stream_valid_eq c0 c sc stream s wakes ret e0 t hq hv hf,
      rfl, rfl, rfl, rfl, rfl, hfs.1, hfs.2⟩
  · intro c0 sc stream s wakes t hsc hf
    exact start_stream_returns c0 sc stream s wakes t hsc hf

/-- C9 at the input of the spec example: the device reports 44100 Hz, 2
channels, S16LE; the spec passes validation, and `uac_pa_start_stream` run on
the live context with the stream going from CREATING to READY returns 0 with a
cached frame size of 4 bytes. -/
theorem start_stream_bytes_per_frame_witness :
    pa_sample_spec_valid (start_stream_spec ctx_negotiated).pa_sample_spec = true ∧
    (start_stream_setup (start_stream_spec ctx_negotiated)).bytes_per_frame =
      ctx_negotiated.channels * pa_sample_size_of_format ctx_negotiated.format ∧
    ctx_negotiated.channels * pa_sample_size_of_format ctx_negotiated.format = 4 ∧
    (∃ c2,
      uac_pa_start_stream ctx_live
          (script_report { format := PA_SAMPLE_S16LE, rate := 44100, channels := 2 }) 2
          PA_STREAM_CREATING [PA_STREAM_READY] =
        some (0, c2,
          [Event.mainloop_lock, Event.mainloop_unlock, Event.mainloop_lock,
            Event.context_get_source_info_by_name, Event.mainloop_wait,
            Event.operation_unref, Event.mainloop_unlock] ++ start_stream_calls ++
            List.replicate
              ((PA_STREAM_CREATING :: [PA_STREAM_READY]).findIdx stream_settled)
              Event.mainloop_wait ++
            [Event.mainloop_unlock]) ∧
      c2.format = PA_SAMPLE_S16LE ∧ c2.channels = 2 ∧ c2.samples_per_sec = 44100 ∧
      c2.pa_stream = 2 ∧ c2.pa_stream_state = PA_STREAM_READY ∧
      c2.bytes_per_frame = c2.channels * pa_sample_size_of_format c2.format ∧
      0 < c2.bytes_per_frame) :=
  ⟨by decide, (start_stream_bytes_per_frame ctx_negotiated (by decide)).1, by decide,
   (start_stream_bytes_per_frame ctx_negotiated (by decide)).2.2.2.2.1 ctx_live
      (script_report { format := PA_SAMPLE_S16LE, rate := 44100, channels := 2 }) 2
      PA_STREAM_CREATING [PA_STREAM_READY] 0
      [Event.mainloop_lock, Event.mainloop_unlock, Event.mainloop_lock,
        Event.context_get_source_info_by_name, Event.mainloop_wait,
        Event.operation_unref, Event.mainloop_unlock]
      PA_STREAM_READY rfl (by decide)⟩

/-- C10: an invocation of `read_cb` on the live stream with nbytes > 0, a
non-null buffer, bytes_per_frame > 0 and samples_per_sec > 0 (a uint32) builds
a frame descriptor: neither division has a zero divisor, frames is
nbytes / bytes_per_frame, samples_per_sec and format come from the context,
and timestamp is now_ns - frames * 1000000000 / samples_per_sec in 64-bit
unsigned arithmetic, which is the plain difference whenever the product fits
64 bits and the duration does not exceed the clock reading. -/
theorem read_cb_frame (ps bytes : Nat) (pk : peek_result) (ts : timespec) (c : pulse_ctx)
    (hlive : c.pa_stream = ps) (hn : 0 < pk.nbytes) (hbuf : pk.frames ≠ 0)
    (hbpf : 0 < c.bytes_per_frame) (hrate : 0 < c.samples_per_sec)
    (hrate32 : c.samples_per_sec < 2 ^ 32) :
    ∃ out e, read_cb ps bytes pk ts c = some (some out, e) ∧
      out.frames = pk.nbytes / c.bytes_per_frame ∧
      out.samples_per_sec = c.samples_per_sec ∧
      out.format = pulse_to_sample_format c.format ∧
      out.timestamp =
        (os_gettime_ns ts + 2 ^ 64 -
          (out.frames * 1000000000 % 2 ^ 64) / c.samples_per_sec) % 2 ^ 64 ∧
      (out.frames * 1000000000 < 2 ^ 64 →
        out.frames * 1000000000 / c.samples_per_sec ≤ os_gettime_ns ts →
        out.timestamp = os_gettime_ns ts - out.frames * 1000000000 / c.samples_per_sec) := by
  have hmod : c.samples_per_sec % 2 ^ 32 = c.samples_per_sec := Nat.mod_eq_of_lt hrate32
  have hr : read_cb ps bytes pk ts c =
      some (some
        { samples_per_sec := c.samples_per_sec
          format := pulse_to_sample_format c.format
          data0 := pk.frames
          frames := pk.nbytes / c.bytes_per_frame
          timestamp :=
            (os_gettime_ns ts + 2 ^ 64 -
              (pk.nbytes / c.bytes_per_frame * 1000000000 % 2 ^ 64) / c.samples_per_sec) %
              2 ^ 64 },
        [Event.stream_peek, Event.stream_drop, Event.mainloop_signal]) := by
    unfold read_cb get_sample_time samples_to_ns udiv NSEC_PER_SEC
    rw [hmod]
    simp [hlive, Nat.pos_iff_ne_zero.1 hn, hbuf, Nat.pos_iff_ne_zero.1 hbpf,
      Nat.pos_iff_ne_zero.1 hrate]
  refine ⟨_, _, hr, rfl, rfl, rfl, rfl, ?_⟩
  intro hfit hle
  show (os_gettime_ns ts + 2 ^ 64 -
      (pk.nbytes / c.bytes_per_frame * 1000000000 % 2 ^ 64) / c.samples_per_sec) % 2 ^ 64 =
    os_gettime_ns ts - pk.nbytes / c.bytes_per_frame * 1000000000 / c.samples_per_sec
  have hfit1 : pk.nbytes / c.bytes_per_frame * 1000000000 < 2 ^ 64 := hfit
  have hle1 : pk.nbytes / c.bytes_per_frame * 1000000000 / c.samples_per_sec ≤
      os_gettime_ns ts := hle
  have hnow : os_gettime_ns ts < 2 ^ 64 := Nat.mod_lt _ (by norm_num)
  rw [Nat.mod_eq_of_lt hfit1]
  generalize pk.nbytes / c.bytes_per_frame * 1000000000 / c.samples_per_sec = d at hle1 ⊢
  generalize os_gettime_ns ts = now at hnow hle1 ⊢
  have h1 : now + 2 ^ 64 - d = (now - d) + 2 ^ 64 := by omega
  rw [h1, Nat.add_mod_right]
  exact Nat.mod_eq_of_lt (by omega)

/-- C10 at the input of the spec example: 4096 bytes at 4 bytes per frame and
44100 Hz on the live stream give a frame count of 1024. -/
theorem read_cb_frame_witness :
    ∃ out e,
      read_cb 2 4096 { frames := 9, nbytes := 4096 } { tv_sec := 100, tv_nsec := 5 }
        ctx_streaming = some (some out, e) ∧
      out.frames = 4096 / 4 ∧ 4096 / 4 = 1024 ∧ out.samples_per_sec = 44100 ∧
      out.format = SAMPLE_FORMAT_16BIT := by
  obtain ⟨out, e, h, hf, hs, hfmt, _, _⟩ :=
    read_cb_frame 2 4096 { frames := 9, nbytes := 4096 } { tv_sec := 100, tv_nsec := 5 }
      ctx_streaming rfl (by decide) (by decide) (by decide) (by decide) (by decide)
  exact ⟨out, e, h, hf, by decide, hs, hfmt⟩

/-- C11, as stated, fails: on the live stream a peek of zero bytes makes
`read_cb` leave through the early exit, whose calls are the peek and the signal
only; the number of drops is 0, not 1. -/
theorem read_cb_zero_bytes_no_drop :
    (read_cb 2 0 { frames := 0, nbytes := 0 } { tv_sec := 100, tv_nsec := 5 }
        ctx_streaming).map (fun r => r.2.count Event.stream_drop) = some 0 ∧
    (read_cb 2 0 { frames := 0, nbytes := 0 } { tv_sec := 100, tv_nsec := 5 }
        ctx_streaming).map (fun r => r.2.count Event.stream_drop) ≠ some 1 := by
  constructor <;> decide

/-- C11, amended: one invocation of `read_cb` on the live stream drops exactly
once when the peek reports bytes and not at all when it reports none. A peek of
zero bytes ends with the calls peek, signal and no frame; a data hole (bytes
with a null buffer) ends with peek, drop, signal and no frame; a normal buffer
with positive bytes_per_frame and samples_per_sec (a uint32) ends with a frame
and peek, drop, signal. Whatever the invocation returns, its calls hold one
drop if nbytes is not 0 and none otherwise. -/
theorem read_cb_drop_count (ps bytes : Nat) (pk : peek_result) (ts : timespec) (c : pulse_ctx)
    (hlive : c.pa_stream = ps) :
    (pk.nbytes = 0 →
      read_cb ps bytes pk ts c = some (none, [Event.stream_peek, Event.mainloop_signal])) ∧
    (pk.nbytes ≠ 0 → pk.frames = 0 →
      read_cb ps bytes pk ts c =
        some (none, [Event.stream_peek, Event.stream_drop, Event.mainloop_signal])) ∧
    (pk.nbytes ≠ 0 → pk.frames ≠ 0 → 0 < c.bytes_per_frame → 0 < c.samples_per_sec →
      c.samples_per_sec < 2 ^ 32 →
      ∃ out, read_cb ps bytes pk ts c =
        some (some out, [Event.stream_peek, Event.stream_drop, Event.mainloop_signal])) ∧
    (∀ r, read_cb ps bytes pk ts c = some r →
      r.2.count Event.stream_drop = if pk.nbytes = 0 then 0 else 1) := by
  refine ⟨?_, ?_, ?_, ?_⟩
  · intro h0
    unfold read_cb
    simp [hlive, h0]
  · intro hn hf
    unfold read_cb
    simp [hlive, hn, hf]
  · intro hn hf hbpf hrate hrate32
    have hmod : c.samples_per_sec % 2 ^ 32 = c.samples_per_sec := Nat.mod_eq_of_lt hrate32
    unfold read_cb get_sample_time samples_to_ns udiv
    rw [hmod]
    simp [hlive, hn, hf, Nat.pos_iff_ne_zero.1 hbpf, Nat.pos_iff_ne_zero.1 hrate]
  · intro r hr
    unfold read_cb at hr
    by_cases h0 : pk.nbytes = 0
    · simp [hlive, h0] at hr
      simp [← hr, h0]
    · by_cases hf : pk.frames = 0
      · simp [hlive, h0, hf] at hr
        simp [← hr, h0]
      · simp only [hlive, ne_eq, not_true_eq_false, if_false, h0, hf] at hr
        cases hd : udiv pk.nbytes c.bytes_per_frame with
        | none => simp [hd] at hr
        | some frames =>
          simp only [hd] at hr
          cases ht : get_sample_time ts frames c.samples_per_sec with
          | none => simp [ht] at hr
          | some timestamp =>
            simp only [ht, Option.some.injEq] at hr
            simp [← hr, h0]

/-- C11 at concrete inputs on the live stream: a data hole of 4096 bytes gives
no frame and one drop, a normal buffer of 4096 bytes gives a frame and the same
calls. -/
theorem read_cb_drop_count_witness :
    read_cb 2 4096 { frames := 0, nbytes := 4096 } { tv_sec := 100, tv_nsec := 5 }
        ctx_streaming =
      some (none, [Event.stream_peek, Event.stream_drop, Event.mainloop_signal]) ∧
    (∃ out, read_cb 2 4096 { frames := 9, nbytes := 4096 } { tv_sec := 100, tv_nsec := 5 }
        ctx_streaming =
      some (some out, [Event.stream_peek, Event.stream_drop, Event.mainloop_signal])) :=
  ⟨(read_cb_drop_count 2 4096 { frames := 0, nbytes := 4096 } { tv_sec := 100, tv_nsec := 5 }
      ctx_streaming rfl).2.1 (by decide) rfl,
   (read_cb_drop_count 2 4096 { frames := 9, nbytes := 4096 } { tv_sec := 100, tv_nsec := 5 }
      ctx_streaming rfl).2.2.1 (by decide) (by decide) (by decide) (by decide) (by decide)⟩

/-- C12: a callback invoked with a token that is not the live handle of the
context touches nothing. When pc differs from c->pa_ctx, each of
`pulse_state_cb`, `server_info_cb`, `source_info_cb`, `source_info_list_cb` and
`sink_info_list_cb` hands back the context as it was, every field included, and
makes no library call; when ps differs from c->pa_stream, `stream_state_cb`
does the same and `read_cb`, which never writes to the context, builds no
frame and makes no call, so neither peek nor drop. -/
theorem stale_token_leaves_ctx (c : pulse_ctx) (pc ps : Nat) (info_s : pa_server_info)
    (info : pa_source_info) (eol : Int) (bytes : Nat) (pk : peek_result) (ts : timespec)
    (hpc : pc ≠ c.pa_ctx) (hps : ps ≠ c.pa_stream) :
    pulse_state_cb pc c = (c, []) ∧
    server_info_cb pc info_s c = (c, []) ∧
    source_info_cb pc info eol c = (c, []) ∧
    source_info_list_cb pc eol c = (c, []) ∧
    sink_info_list_cb pc eol c = (c, []) ∧
    read_cb ps bytes pk ts c = some (none, []) ∧
    stream_state_cb ps c = (c, []) := by
  have hpc1 : c.pa_ctx ≠ pc := fun h => hpc h.symm
  have hps1 : c.pa_stream ≠ ps := fun h => hps h.symm
  refine ⟨?_, ?_, ?_, ?_, ?_, ?_, ?_⟩
  · unfold pulse_state_cb
    rw [if_pos hpc1]
  · unfold server_info_cb
    rw [if_pos hpc1]
  · unfold source_info_cb
    rw [if_pos hpc1]
  · unfold source_info_list_cb
    rw [if_pos hpc1]
  · unfold sink_info_list_cb
    rw [if_pos hpc1]
  · unfold read_cb
    rw [if_pos hps1]
  · unfold stream_state_cb
    rw [if_pos hps1]

/-- C12 at a concrete input: the streaming context has connection token 1 and
stream token 2; callbacks carrying the tokens 5 and 6 change nothing, also for
a data item that would otherwise renegotiate the format and for a peek that
would otherwise be dropped. -/
theorem stale_token_leaves_ctx_witness :
    (5 ≠ ctx_streaming.pa_ctx ∧ 6 ≠ ctx_streaming.pa_stream) ∧
    server_info_cb 5 server_info_sample ctx_streaming = (ctx_streaming, []) ∧
    source_info_cb 5 { sample_spec := { format := PA_SAMPLE_U8, rate := 8000, channels := 1 } }
        0 ctx_streaming = (ctx_streaming, []) ∧
    read_cb 6 4096 { frames := 9, nbytes := 4096 } { tv_sec := 100, tv_nsec := 5 }
        ctx_streaming = some (none, []) :=
  have h := stale_token_leaves_ctx ctx_streaming 5 6 server_info_sample
    { sample_spec := { format := PA_SAMPLE_U8, rate := 8000, channels := 1 } } 0 4096
    { frames := 9, nbytes := 4096 } { tv_sec := 100, tv_nsec := 5 } (by decide) (by decide)
  ⟨⟨by decide, by decide⟩, h.2.1, h.2.2.1, h.2.2.2.2.2.1⟩

end PulseAudio
